import Mathlib

/-!
Verification of the contrast-response-function fitting pipeline
(`Contrat_Gain_VSS/scripts/analysis/5_model_fitting.py`) and the behavioral
reaction-time classifier
(`Neuroplasticity_VSS/scripts/analysis/process_reaction_times.py`).

The numeric model code is embedded over `ℝ` (Python float powers with real
exponents become `Real.rpow`); the log-file classifier, which only compares
and subtracts time stamps, is embedded over `ℚ` so that it stays decidable
on concrete inputs.  Python's `NaN` markers for missing reaction times are
embedded as `Option.none`.
-/

namespace ModelFitting

/-- The four free parameters of the Naka-Rushton model, named as in the
`lmfit.Parameters` object built by `initialize_parameters`. -/
structure ModelParameters where
  semisaturation : ℝ
  MAXampl : ℝ
  Saturation : ℝ
  baseline : ℝ

/-- `naka_rushton` (5_model_fitting.py, lines 63-88):
`Rmax * contrast**2 / (semisat**(2*s) + contrast**(2*s)) + b`.
The literal exponent `2` in the numerator is an integer square; the
`2*s` exponents are real powers (`Real.rpow`). -/
noncomputable def naka_rushton (params : ModelParameters) (contrast : ℝ) : ℝ :=
  params.MAXampl * contrast ^ 2 /
      (params.semisaturation ^ (2 * params.Saturation) +
        contrast ^ (2 * params.Saturation)) +
    params.baseline

/-- The spec's model formula, transcribed from its own words:
"response(contrast) = maxAmplitude * contrast^2 /
(semisaturation^(2*saturationExponent) + contrast^(2*saturationExponent))
+ baseline". -/
noncomputable def responseSpec (semisaturation maxAmplitude saturationExponent
    baseline contrast : ℝ) : ℝ :=
  maxAmplitude * contrast ^ 2 /
      (semisaturation ^ (2 * saturationExponent) +
        contrast ^ (2 * saturationExponent)) +
    baseline

/-- C2: the code's model evaluation agrees with the spec's closed-form
expression at every parameter set and every contrast value. -/
theorem naka_rushton_matches_spec (semisaturation maxAmplitude
    saturationExponent baseline contrast : ℝ) :
    naka_rushton ⟨semisaturation, maxAmplitude, saturationExponent, baseline⟩
        contrast =
      responseSpec semisaturation maxAmplitude saturationExponent baseline
        contrast := rfl

/-- C6: with positive semisaturation and saturation exponent, the model
evaluated at contrast 0 returns exactly the baseline parameter. -/
theorem naka_rushton_at_zero (p : ModelParameters)
    (hsemi : 0 < p.semisaturation) (hsat : 0 < p.Saturation) :
    naka_rushton p 0 = p.baseline := by
  unfold naka_rushton
  rw [show (0:ℝ) ^ 2 = 0 by norm_num, mul_zero, zero_div, zero_add]

/-- Witness for C6 at the concrete parameter set
(semisaturation, MAXampl, Saturation, baseline) = (1, 5, 1, 7). -/
theorem naka_rushton_at_zero_witness :
    (0:ℝ) < 1 ∧ (0:ℝ) < 1 ∧ naka_rushton ⟨1, 5, 1, 7⟩ 0 = 7 :=
  ⟨by norm_num, by norm_num,
    naka_rushton_at_zero ⟨1, 5, 1, 7⟩ (by norm_num) (by norm_num)⟩

/-- C1 counterexample: at the valid parameter set
(semisaturation, MAXampl, Saturation, baseline) = (1, 1, 2, 0) — positive
semisaturation, non-negative amplitude and baseline, saturation exponent
2 > 0 — and contrasts 0 < 1 ≤ 2, the model strictly decreases:
the numerator grows like contrast^2 while the denominator grows like
contrast^4, so the curve is not monotonically non-decreasing. -/
theorem naka_rushton_not_monotone :
    (0:ℝ) < 1 ∧ (0:ℝ) ≤ 1 ∧ (0:ℝ) < 2 ∧ (0:ℝ) ≤ 0 ∧
      (0:ℝ) < 1 ∧ (1:ℝ) ≤ 2 ∧
      ¬ naka_rushton ⟨1, 1, 2, 0⟩ 1 ≤ naka_rushton ⟨1, 1, 2, 0⟩ 2 := by
  refine ⟨by norm_num, by norm_num, by norm_num, le_refl 0,
    by norm_num, by norm_num, ?_⟩
  have h1 : naka_rushton ⟨1, 1, 2, 0⟩ 1 = 1 / 2 := by
    unfold naka_rushton
    norm_num [Real.one_rpow]
  have h2 : naka_rushton ⟨1, 1, 2, 0⟩ 2 = 4 / 17 := by
    unfold naka_rushton
    rw [show (2:ℝ) * 2 = ((4:ℕ):ℝ) by norm_num, Real.one_rpow,
      Real.rpow_natCast]
    norm_num
  rw [h1, h2]
  norm_num

/-- C1 (amended): for valid parameters whose saturation exponent lies in
(0, 1], the model is monotonically non-decreasing over positive contrasts. -/
theorem naka_rushton_monotone (p : ModelParameters)
    (hsemi : 0 < p.semisaturation) (hmax : 0 ≤ p.MAXampl)
    (hs0 : 0 < p.Saturation) (hs1 : p.Saturation ≤ 1)
    (c1 c2 : ℝ) (hc1 : 0 < c1) (hc12 : c1 ≤ c2) :
    naka_rushton p c1 ≤ naka_rushton p c2 := by
  have hc2 : 0 < c2 := lt_of_lt_of_le hc1 hc12
  set t := 2 * p.Saturation with ht
  have ht0 : 0 < t := by positivity
  have ht2 : t ≤ 2 := by simp only [ht]; linarith
  have hK : 0 < p.semisaturation ^ t := Real.rpow_pos_of_pos hsemi t
  have hD1 : 0 < p.semisaturation ^ t + c1 ^ t :=
    add_pos hK (Real.rpow_pos_of_pos hc1 t)
  have hD2 : 0 < p.semisaturation ^ t + c2 ^ t :=
    add_pos hK (Real.rpow_pos_of_pos hc2 t)
  have key : c1 ^ 2 * c2 ^ t ≤ c2 ^ 2 * c1 ^ t := by
    have hz0 : 0 < c1 / c2 := div_pos hc1 hc2
    have hz1 : c1 / c2 ≤ 1 := (div_le_one hc2).mpr hc12
    have hzz : (c1 / c2) ^ (((2:ℕ):ℝ)) ≤ (c1 / c2) ^ t := by
      apply Real.rpow_le_rpow_of_exponent_ge hz0 hz1
      push_cast
      exact ht2
    rw [Real.rpow_natCast, Real.div_rpow hc1.le hc2.le,
      div_pow, div_le_div_iff (by positivity) (by positivity)] at hzz
    calc c1 ^ 2 * c2 ^ t ≤ c1 ^ t * c2 ^ 2 := hzz
      _ = c2 ^ 2 * c1 ^ t := by ring
  unfold naka_rushton
  rw [← ht]
  apply add_le_add_right
  rw [mul_div_assoc, mul_div_assoc]
  apply mul_le_mul_of_nonneg_left _ hmax
  rw [div_le_div_iff hD1 hD2]
  have hsq : c1 ^ 2 * p.semisaturation ^ t ≤ c2 ^ 2 * p.semisaturation ^ t :=
    mul_le_mul_of_nonneg_right (pow_le_pow_left hc1.le hc12 2) hK.le
  nlinarith [key, hsq]

/-- Witness for the amended C1 at parameters (1, 2, 1, 0) and contrasts
1 ≤ 2. -/
theorem naka_rushton_monotone_witness :
    (0:ℝ) < 1 ∧ (0:ℝ) ≤ 2 ∧ (0:ℝ) < 1 ∧ (1:ℝ) ≤ 1 ∧ (0:ℝ) < 1 ∧
      (1:ℝ) ≤ 2 ∧ naka_rushton ⟨1, 2, 1, 0⟩ 1 ≤ naka_rushton ⟨1, 2, 1, 0⟩ 2 :=
  ⟨by norm_num, by norm_num, by norm_num, by norm_num, by norm_num,
    by norm_num,
    naka_rushton_monotone ⟨1, 2, 1, 0⟩ (by norm_num) (by norm_num)
      (by norm_num) (by norm_num) 1 2 (by norm_num) (by norm_num)⟩

/-- `residual` (5_model_fitting.py, lines 90-107): elementwise
`data - naka_rushton(params, contrast)`.  The optimizer's `result.residual`
is this vector at the converged parameters. -/
noncomputable def residual_list (params : ModelParameters)
    (contrast data : List ℝ) : List ℝ :=
  List.zipWith (fun d c => d - naka_rushton params c) data contrast

/-- `rss = (result.residual**2).sum()` (line 300). -/
noncomputable def rss (params : ModelParameters)
    (contrast data : List ℝ) : ℝ :=
  ((residual_list params contrast data).map (fun x => x ^ 2)).sum

/-- `mean(data)` from `numpy`. -/
noncomputable def data_mean (data : List ℝ) : ℝ :=
  data.sum / data.length

/-- `tss = sum(np.power(data - mean(data), 2))` (line 301). -/
noncomputable def tss (data : List ℝ) : ℝ :=
  (data.map (fun d => (d - data_mean data) ^ 2)).sum

/-- `rsq = 1 - rss/tss` (line 302). -/
noncomputable def rsq (params : ModelParameters)
    (contrast data : List ℝ) : ℝ :=
  1 - rss params contrast data / tss data

/-- Predicted responses at the converged parameters, as the spec describes
them: the model evaluated at each contrast level. -/
noncomputable def predicted (params : ModelParameters)
    (contrast : List ℝ) : List ℝ :=
  contrast.map (naka_rushton params)

/-- The spec's residual sum of squares: Σ(observed − predicted)². -/
noncomputable def RSS_spec (params : ModelParameters)
    (contrast data : List ℝ) : ℝ :=
  (List.zipWith (fun o pr => (o - pr) ^ 2) data (predicted params contrast)).sum

/-- The spec's total sum of squares: Σ(observed − mean(observed))². -/
noncomputable def TSS_spec (data : List ℝ) : ℝ :=
  (data.map (fun o => (o - data_mean data) ^ 2)).sum

theorem zipWith_map_right_eq {α β γ δ : Type} (f : α → γ → δ) (g : β → γ)
    (l₁ : List α) (l₂ : List β) :
    List.zipWith f l₁ (l₂.map g) = List.zipWith (fun a b => f a (g b)) l₁ l₂ := by
  induction l₁ generalizing l₂ with
  | nil => simp
  | cons a l ih =>
    cases l₂ with
    | nil => simp
    | cons b l' => simp [ih]

/-- C4: the goodness of fit reported by the code is exactly
1 − RSS/TSS with RSS and TSS as the spec defines them. -/
theorem rsq_eq_one_sub_rss_div_tss (params : ModelParameters)
    (contrast data : List ℝ) :
    rsq params contrast data =
      1 - RSS_spec params contrast data / TSS_spec data := by
  unfold rsq rss RSS_spec predicted tss TSS_spec residual_list
  rw [zipWith_map_right_eq, List.map_zipWith]

theorem sum_sq_nonneg (l : List ℝ) : 0 ≤ (l.map (fun x => x ^ 2)).sum := by
  apply List.sum_nonneg
  intro x hx
  obtain ⟨y, _, rfl⟩ := List.mem_map.mp hx
  positivity

theorem sum_sq_eq_zero_iff (l : List ℝ) :
    (l.map (fun x => x ^ 2)).sum = 0 ↔ ∀ x ∈ l, x = 0 := by
  induction l with
  | nil => simp
  | cons a l ih =>
    simp only [List.map_cons, List.sum_cons, List.mem_cons]
    constructor
    · intro h
      have ha : 0 ≤ a ^ 2 := sq_nonneg a
      have hl : 0 ≤ (l.map (fun x => x ^ 2)).sum := sum_sq_nonneg l
      have ha0 : a ^ 2 = 0 := by linarith
      have hl0 : (l.map (fun x => x ^ 2)).sum = 0 := by linarith
      refine fun x hx => hx.elim (fun h1 => ?_) (fun h1 => ih.mp hl0 x h1)
      subst h1
      exact pow_eq_zero_iff (n := 2) (by norm_num) |>.mp ha0
    · intro h
      have ha0 : a = 0 := h a (Or.inl rfl)
      have hl0 : (l.map (fun x => x ^ 2)).sum = 0 :=
        ih.mpr fun x hx => h x (Or.inr hx)
      rw [ha0, hl0]
      norm_num

/-- C5: whenever the observed data are not all identical (TSS > 0), the
computed R² is at most 1, and equals 1 exactly when every residual is zero;
moreover R² is not clamped below: at parameters (1, 0, 1, 100) — a constant
model at 100 — with data [0, 2] the computed R² is negative. -/
theorem rsq_range (params : ModelParameters) (contrast data : List ℝ)
    (htss : 0 < tss data) :
    rsq params contrast data ≤ 1 ∧
      (rsq params contrast data = 1 ↔
        ∀ r ∈ residual_list params contrast data, r = 0) ∧
      rsq ⟨1, 0, 1, 100⟩ [1, 1] [0, 2] < 0 := by
  have hrss : 0 ≤ rss params contrast data := sum_sq_nonneg _
  refine ⟨?_, ?_, ?_⟩
  · unfold rsq
    have : 0 ≤ rss params contrast data / tss data := div_nonneg hrss htss.le
    linarith
  · unfold rsq
    rw [sub_eq_self]
    constructor
    · intro h0
      have : rss params contrast data = 0 := by
        rcases div_eq_zero_iff.mp h0 with h1 | h1
        · exact h1
        · exact absurd h1 htss.ne'
      exact (sum_sq_eq_zero_iff _).mp this
    · intro h
      have : rss params contrast data = 0 := (sum_sq_eq_zero_iff _).mpr h
      rw [this, zero_div]
  · have hmodel : ∀ c : ℝ, naka_rushton ⟨1, 0, 1, 100⟩ c = 100 := by
      intro c
      unfold naka_rushton
      norm_num
    have hres : residual_list ⟨1, 0, 1, 100⟩ [1, 1] [0, 2] = [-100, -98] := by
      unfold residual_list
      simp [hmodel]
      norm_num
    have hrss2 : rss ⟨1, 0, 1, 100⟩ [1, 1] [0, 2] = 19604 := by
      unfold rss
      rw [hres]
      norm_num
    have htss2 : tss [0, 2] = 2 := by
      unfold tss data_mean
      norm_num
    unfold rsq
    rw [hrss2, htss2]
    norm_num

/-- Witness for C5 with the concrete data [0, 2] (TSS = 2 > 0) and the
constant-at-100 parameter set (1, 0, 1, 100). -/
theorem rsq_range_witness :
    0 < tss [0, 2] ∧
      (rsq ⟨1, 0, 1, 100⟩ [1, 1] [0, 2] ≤ 1 ∧
        (rsq ⟨1, 0, 1, 100⟩ [1, 1] [0, 2] = 1 ↔
          ∀ r ∈ residual_list ⟨1, 0, 1, 100⟩ [1, 1] [0, 2], r = 0) ∧
        rsq ⟨1, 0, 1, 100⟩ [1, 1] [0, 2] < 0) := by
  have htss2 : tss [0, 2] = 2 := by
    unfold tss data_mean
    norm_num
  exact ⟨by rw [htss2]; norm_num,
    rsq_range ⟨1, 0, 1, 100⟩ [1, 1] [0, 2] (by rw [htss2]; norm_num)⟩

/-- The error taxonomy named by the spec for the fit operation. -/
inductive FitError where
  | InvalidInput : FitError
  | FitDivergence : FitError
  deriving DecidableEq

/-- `CONTRASTS = np.array([0.05, 0.1, 0.2, 0.4, 0.8])`
(5_model_fitting.py, line 34): the fixed contrast grid used by every fit. -/
def CONTRASTS : List ℝ := [0.05, 0.1, 0.2, 0.4, 0.8]

/-- One row of the per-subject CSV consumed by `load_subject_data`: the five
condition columns `C5%, C10%, C20%, C40%, C80%` and the `Base` column. -/
structure SubjectRow where
  c5 : ℝ
  c10 : ℝ
  c20 : ℝ
  c40 : ℝ
  c80 : ℝ
  base : ℝ

/-- `load_subject_data` (lines 113-140): selects the five condition columns
and the baseline column of the subject's row and scales them by 1e12. -/
def load_subject_data (row : SubjectRow) : List ℝ × ℝ :=
  ([row.c5 * 1e12, row.c10 * 1e12, row.c20 * 1e12, row.c40 * 1e12,
    row.c80 * 1e12], row.base * 1e12)

/-- The input-validation step of the fit path.  The `try` block of
`process_subject` (lines 282-302) loads the data, initializes the parameters
and calls `minimize` directly, with no explicit check on the contrast or
response sequences, so no input configuration is ever rejected with an
error value. -/
def fit_input_check (contrastLevels responses : List ℝ) : Option FitError :=
  none

/-- C3 counterexample: on contrast/response sequences of mismatched lengths
(1 contrast, 2 responses) the fit path does not fail with `InvalidInput` —
the code performs no input validation at all. -/
theorem fit_no_invalid_input_check :
    ([(1:ℝ)].length ≠ [(1:ℝ), 2].length) ∧
      fit_input_check [1] [1, 2] ≠ some FitError.InvalidInput := by
  constructor
  · decide
  · intro h
    exact Option.noConfusion h

/-- C3 (amended): the fit path performs no input validation (it reports no
error for any input), and in the pipeline the invalid configurations cannot
arise: the contrast grid is the fixed five-element `CONTRASTS`, every entry
of which is positive, and every loaded data vector has exactly five (≥ 4)
entries, matching the grid's length. -/
theorem fit_inputs_always_well_formed :
    (∀ contrastLevels responses : List ℝ,
        fit_input_check contrastLevels responses = none) ∧
      CONTRASTS.length = 5 ∧ (∀ c ∈ CONTRASTS, 0 < c) ∧
      (∀ row : SubjectRow,
        (load_subject_data row).1.length = CONTRASTS.length ∧
          4 ≤ (load_subject_data row).1.length) := by
  refine ⟨fun _ _ => rfl, rfl, ?_, fun row => ⟨rfl, by norm_num [load_subject_data]⟩⟩
  intro c hc
  simp only [CONTRASTS, List.mem_cons, List.not_mem_nil, or_false] at hc
  rcases hc with rfl | rfl | rfl | rfl | rfl <;> norm_num

/-- A single fit outcome as returned by `process_subject`: the subject id and
the five reported values [semisaturation, MAXampl, Saturation, baseline, R²];
`none` when an exception was caught and the subject was skipped. -/
abbrev SubjectResult := Option (String × List ℝ)

/-- The accumulation loop of `__main__` (lines 343-355): for each (group,
subject list) pair and each input file, run `process_subject` and append the
result when it is not `None`. -/
def gather_results (process : String → String → String → SubjectResult)
    (groups : List (String × List String)) (files : List String) :
    List String × List (List ℝ) :=
  groups.foldl
    (fun acc gs =>
      gs.2.foldl
        (fun acc2 subject =>
          files.foldl
            (fun acc3 file =>
              match process gs.1 subject file with
              | some r => (acc3.1 ++ [r.1], acc3.2 ++ [r.2])
              | none => acc3)
            acc2)
        acc)
    ([], [])

/-- The output step of `__main__` (lines 357-367): the results CSV is written
only under `if all_results:`, i.e. only when at least one fit succeeded;
`none` means no file is written at all. -/
def main_output (gathered : List String × List (List ℝ)) :
    Option (List String × List (List ℝ)) :=
  if gathered.2.isEmpty then none else some gathered

/-- The whole batch run over the two subject groups `VS` and `CONTR`
(line 348). -/
def main_run (process : String → String → String → SubjectResult)
    (files : List String) (subjects_vs subjects_contr : List String) :
    Option (List String × List (List ℝ)) :=
  main_output (gather_results process
    [("VS", subjects_vs), ("CONTR", subjects_contr)] files)

/-- C7 counterexample: with both subject lists empty (and the pipeline's
single input file), the batch run writes no results file at all — it does
not produce an empty table with headers. -/
theorem empty_subjects_no_output :
    main_run (fun _ _ _ => none) ["Appelbaum_Nmax_1"] [] [] = none := rfl

/-- C7 (amended): with an empty subject list the batch run raises no error
and gathers no results, but it also writes no results file: the CSV write is
guarded by a non-emptiness check on the gathered results. -/
theorem empty_subjects_batch (process : String → String → String → SubjectResult)
    (files : List String) :
    gather_results process [("VS", []), ("CONTR", [])] files = ([], []) ∧
      main_run process files [] [] = none := by
  constructor <;> rfl

/-- The bound interval of one `lmfit` parameter: a lower bound and an
optional upper bound, as passed to `Parameters.add` by
`initialize_parameters` (lines 142-175). -/
structure ParamBounds where
  lo : ℝ
  hi : Option ℝ

/-- `params.add('semisaturation', ..., min=0.0, max=50.0)`. -/
def semisaturation_bounds : ParamBounds := ⟨0, some 50⟩

/-- `params.add('MAXampl', ..., min=0)`. -/
def MAXampl_bounds : ParamBounds := ⟨0, none⟩

/-- `params.add('Saturation', ..., min=0.0, max=5.0)`. -/
def Saturation_bounds : ParamBounds := ⟨0, some 5⟩

/-- `params.add('baseline', ..., min=0.0)`. -/
def baseline_bounds : ParamBounds := ⟨0, none⟩

/-- Membership in a closed `lmfit` bound interval. -/
def inBounds (b : ParamBounds) (x : ℝ) : Prop :=
  b.lo ≤ x ∧ match b.hi with
    | none => True
    | some h => x ≤ h

/-- Modelled from the spec: the optimizer itself is the external `lmfit`
library (absent from the sources); the spec states that the least-squares
iteration is "restricted to the declared bounds", so an optimizer state is
admissible exactly when each parameter lies within the bounds configured by
`initialize_parameters`. -/
def optimizer_admissible (p : ModelParameters) : Prop :=
  inBounds semisaturation_bounds p.semisaturation ∧
    inBounds MAXampl_bounds p.MAXampl ∧
    inBounds Saturation_bounds p.Saturation ∧
    inBounds baseline_bounds p.baseline

/-- C8 counterexample: the all-zero parameter set lies within every
configured bound — the lower bounds are inclusive of 0 — yet its
semisaturation and saturation exponent are not strictly positive, so the
bounds do not keep those two parameters in the open positive range. -/
theorem zero_params_admissible :
    optimizer_admissible ⟨0, 0, 0, 0⟩ ∧
      ¬ (0 < (ModelParameters.mk 0 0 0 0).semisaturation ∧
          0 < (ModelParameters.mk 0 0 0 0).Saturation) := by
  constructor
  · refine ⟨?_, ?_, ?_, ?_⟩ <;>
      norm_num [inBounds, semisaturation_bounds, MAXampl_bounds,
        Saturation_bounds, baseline_bounds]
  · intro h
    exact lt_irrefl 0 h.1

/-- C8 (amended): every admissible optimizer state keeps the four parameters
within the configured closed bounds — semisaturation ∈ [0, 50],
saturation exponent ∈ [0, 5], amplitude ≥ 0, baseline ≥ 0 — but the lower
bounds include 0, so strict positivity of semisaturation and of the
saturation exponent is not guaranteed. -/
theorem admissible_within_bounds (p : ModelParameters)
    (hp : optimizer_admissible p) :
    (0 ≤ p.semisaturation ∧ p.semisaturation ≤ 50) ∧
      0 ≤ p.MAXampl ∧
      (0 ≤ p.Saturation ∧ p.Saturation ≤ 5) ∧
      0 ≤ p.baseline := by
  obtain ⟨⟨h1, h1'⟩, ⟨h2, _⟩, ⟨h3, h3'⟩, ⟨h4, _⟩⟩ := hp
  exact ⟨⟨h1, h1'⟩, h2, ⟨h3, h3'⟩, h4⟩

/-- Witness for the amended C8 at the parameter set (1, 2, 1, 3). -/
theorem admissible_within_bounds_witness :
    optimizer_admissible ⟨1, 2, 1, 3⟩ ∧
      ((0 ≤ (ModelParameters.mk 1 2 1 3).semisaturation ∧
          (ModelParameters.mk 1 2 1 3).semisaturation ≤ 50) ∧
        0 ≤ (ModelParameters.mk 1 2 1 3).MAXampl ∧
        ((0 ≤ (ModelParameters.mk 1 2 1 3).Saturation ∧
            (ModelParameters.mk 1 2 1 3).Saturation ≤ 5) ∧
          0 ≤ (ModelParameters.mk 1 2 1 3).baseline)) := by
  have hadm : optimizer_admissible ⟨1, 2, 1, 3⟩ := by
    refine ⟨?_, ?_, ?_, ?_⟩ <;>
      norm_num [inBounds, semisaturation_bounds, MAXampl_bounds,
        Saturation_bounds, baseline_bounds]
  exact ⟨hadm, admissible_within_bounds ⟨1, 2, 1, 3⟩ hadm⟩

end ModelFitting

namespace ReactionTimes

/-- `RESPONSE_WINDOW = 1700` (process_reaction_times.py, line 23):
the window, in milliseconds, for a valid timed response. -/
def RESPONSE_WINDOW : ℚ := 1700

/-- Python's `label.startswith('gr_')` (line 68): the characters `g`, `r`,
`_` are a prefix of the label's characters. -/
def startsWithGr (lab : String) : Bool :=
  List.isPrefixOf "gr_".data lab.data

/-- The classification step at the end of one stimulus block
(process_reaction_times.py, lines 84-106).  `disappear_time`,
`response_time` and `late_time` are the last recorded times of the
`disappear`, `16` and `late` events of the block (`none` when absent); the
result is the response class and the time difference, with Python's `NaN`
embedded as `none`. -/
def classify_trial (disappear_time response_time late_time : Option ℚ) :
    ℕ × Option ℚ :=
  match disappear_time with
  | some d =>
    match response_time with
    | some r =>
      let time_diff := r - d
      if r < d then (0, some time_diff)
      else if d ≤ r ∧ r ≤ d + RESPONSE_WINDOW then (0, some time_diff)
      else if (match late_time with
               | some l => decide (l < r)
               | none => false) then (2, some time_diff)
      else if d + RESPONSE_WINDOW < r ∧ late_time = none ∧
          time_diff < 10000 then (1, some time_diff)
      else (2, some time_diff)
    | none =>
      match late_time with
      | some _ => (2, none)
      | none => (2, none)
  | none => (3, none)

/-- The state of the scan over the log: whether the loop is inside a
stimulus block, the three time accumulators of the current block, and the
classified trials emitted so far. -/
structure ScanState where
  inBlock : Bool
  d : Option ℚ
  r : Option ℚ
  l : Option ℚ
  out : List (ℕ × Option ℚ)

/-- The body of the inner `while` loop (lines 74-82): a `disappear`, `16` or
`late` label overwrites the corresponding accumulator; any other label is
skipped. -/
def update_times (st : ScanState) (lab : String) (t : ℚ) : ScanState :=
  { st with
    d := if lab = "disappear" then some t else st.d
    r := if lab = "16" then some t else st.r
    l := if lab = "late" then some t else st.l }

/-- One step of `classify_responses` (lines 64-111) on a single log event.
Outside a block, a label starting with `gr_` opens a block with cleared
accumulators (the `gr_` event itself is then examined by the inner loop,
matching none of its cases) and every other label is skipped; inside a
block, a `fix` or `anim` label closes the block and emits the classified
trial, and every other label — including a further `gr_` label — feeds the
accumulators. -/
def scan_step (st : ScanState) (ev : String × ℚ) : ScanState :=
  if st.inBlock then
    if ev.1 = "fix" ∨ ev.1 = "anim" then
      { inBlock := false, d := none, r := none, l := none,
        out := st.out ++ [classify_trial st.d st.r st.l] }
    else update_times st ev.1 ev.2
  else
    if startsWithGr ev.1 then
      update_times
        { inBlock := true, d := none, r := none, l := none, out := st.out }
        ev.1 ev.2
    else st

/-- `classify_responses` (lines 57-113) over the log's (Code, Time) rows:
scan the events; if the log ends inside a block, the inner `while` stops at
the end of the list and the pending trial is still classified and emitted. -/
def classify_responses (log_events : List (String × ℚ)) :
    List (ℕ × Option ℚ) :=
  let fin := log_events.foldl scan_step ⟨false, none, none, none, []⟩
  if fin.inBlock then fin.out ++ [classify_trial fin.d fin.r fin.l]
  else fin.out

/-- The first returned list, `response_types`. -/
def response_types (log_events : List (String × ℚ)) : List ℕ :=
  (classify_responses log_events).map Prod.fst

/-- The second returned list, `time_differences`. -/
def time_differences (log_events : List (String × ℚ)) : List (Option ℚ) :=
  (classify_responses log_events).map Prod.snd

/-- The number of log events whose label starts with `gr_`. -/
def gr_event_count (log_events : List (String × ℚ)) : ℕ :=
  (log_events.filter (fun ev => startsWithGr ev.1)).length

/-- One step of the block counter: a `gr_` label opens a block (counted on
entry), a `fix`/`anim` label closes it. -/
def block_count_step (st : Bool × ℕ) (ev : String × ℚ) : Bool × ℕ :=
  if st.1 then
    if ev.1 = "fix" ∨ ev.1 = "anim" then (false, st.2) else st
  else
    if startsWithGr ev.1 then (true, st.2 + 1) else st

/-- The number of stimulus blocks in the log: maximal segments opened by a
`gr_` label and closed by the next `fix`/`anim` label (or the end of the
log). -/
def gr_block_count (log_events : List (String × ℚ)) : ℕ :=
  (log_events.foldl block_count_step (false, 0)).2

theorem classify_trial_fst_le (d r l : Option ℚ) :
    (classify_trial d r l).1 ≤ 3 := by
  rcases d with _ | d
  · simp [classify_trial]
  rcases r with _ | r
  · rcases l with _ | l <;> simp [classify_trial]
  · simp only [classify_trial]
    split_ifs <;> simp

theorem classify_trial_snd_none_iff (d r l : Option ℚ) :
    (classify_trial d r l).2 = none ↔ (r = none ∨ d = none) := by
  rcases d with _ | d
  · simp [classify_trial]
  rcases r with _ | r
  · rcases l with _ | l <;> simp [classify_trial]
  · simp only [classify_trial]
    split_ifs <;> simp

theorem scan_step_block (st : ScanState) (bn : Bool × ℕ) (ev : String × ℚ)
    (hflag : st.inBlock = bn.1)
    (hcount : st.out.length + (if bn.1 then 1 else 0) = bn.2) :
    (scan_step st ev).inBlock = (block_count_step bn ev).1 ∧
      (scan_step st ev).out.length +
          (if (block_count_step bn ev).1 then 1 else 0) =
        (block_count_step bn ev).2 := by
  obtain ⟨b, n⟩ := bn
  by_cases hb : b = true <;>
    by_cases hfix : ev.1 = "fix" ∨ ev.1 = "anim" <;>
      by_cases hgr : startsWithGr ev.1 = true <;>
        simp_all [scan_step, block_count_step, update_times] <;> omega

theorem scan_foldl_block (evs : List (String × ℚ)) (st : ScanState)
    (bn : Bool × ℕ) (hflag : st.inBlock = bn.1)
    (hcount : st.out.length + (if bn.1 then 1 else 0) = bn.2) :
    (evs.foldl scan_step st).inBlock = (evs.foldl block_count_step bn).1 ∧
      (evs.foldl scan_step st).out.length +
          (if (evs.foldl block_count_step bn).1 then 1 else 0) =
        (evs.foldl block_count_step bn).2 := by
  induction evs generalizing st bn with
  | nil => exact ⟨hflag, hcount⟩
  | cons ev rest ih =>
    simp only [List.foldl_cons]
    obtain ⟨h1, h2⟩ := scan_step_block st bn ev hflag hcount
    exact ih (scan_step st ev) (block_count_step bn ev) h1 h2

theorem scan_foldl_out_le (evs : List (String × ℚ)) (st : ScanState)
    (h : ∀ x ∈ st.out, x.1 ≤ 3) :
    ∀ x ∈ (evs.foldl scan_step st).out, x.1 ≤ 3 := by
  induction evs generalizing st with
  | nil => exact h
  | cons ev rest ih =>
    simp only [List.foldl_cons]
    apply ih
    intro x hx
    unfold scan_step update_times at hx
    split_ifs at hx <;>
      first
        | exact h x hx
        | · simp only [List.mem_append, List.mem_singleton] at hx
            rcases hx with hx | hx
            · exact h x hx
            · rw [hx]
              exact classify_trial_fst_le _ _ _

/-- C9 (amended): for every log, `classify_responses` returns response
classes and time differences of equal length, with exactly one entry per
stimulus block — a maximal segment opened by a `gr_` label and closed by the
next `fix`/`anim` label (adjacent `gr_` events with no such separator are
merged into one block) — every class drawn from {0, 1, 2, 3}, and the time
difference missing (Python `NaN`) exactly when the trial lacks a response
event or a disappear event. -/
theorem classify_responses_shape (log_events : List (String × ℚ)) :
    (response_types log_events).length =
        (time_differences log_events).length ∧
      (classify_responses log_events).length = gr_block_count log_events ∧
      (∀ x ∈ classify_responses log_events,
        x.1 = 0 ∨ x.1 = 1 ∨ x.1 = 2 ∨ x.1 = 3) ∧
      (∀ d r l : Option ℚ,
        (classify_trial d r l).2 = none ↔ (r = none ∨ d = none)) := by
  refine ⟨by simp [response_types, time_differences], ?_, ?_,
    classify_trial_snd_none_iff⟩
  · obtain ⟨h1, h2⟩ := scan_foldl_block log_events
      ⟨false, none, none, none, []⟩ (false, 0) rfl (by simp)
    simp only [classify_responses, gr_block_count]
    rw [← h2, h1]
    split_ifs with hb <;> simp
  · intro x hx
    have hle : x.1 ≤ 3 := by
      simp only [classify_responses] at hx
      split_ifs at hx with hb
      · simp only [List.mem_append, List.mem_singleton] at hx
        rcases hx with hx | hx
        · exact scan_foldl_out_le log_events ⟨false, none, none, none, []⟩
            (by simp) x hx
        · rw [hx]
          exact classify_trial_fst_le _ _ _
      · exact scan_foldl_out_le log_events ⟨false, none, none, none, []⟩
          (by simp) x hx
    omega

/-- C9 counterexample: in the log [gr_0, gr_1, fix] the two adjacent grating
events are merged into a single stimulus block, so `classify_responses`
emits one entry for two grating events — not exactly one entry per grating
event. -/
theorem classify_responses_merges_adjacent_gratings :
    gr_event_count [("gr_0", (0:ℚ)), ("gr_1", 1), ("fix", 2)] = 2 ∧
      (classify_responses [("gr_0", (0:ℚ)), ("gr_1", 1), ("fix", 2)]).length
        = 1 := by
  constructor <;> decide

/-- C10: a trial with both a disappear event and a response event strictly
earlier than it is assigned class 0 with the negative time difference
recorded — the same class 0 that an on-time response (within the
1700 ms window after the disappear event) receives, so early responses are
indistinguishable from correct ones in the output classes. -/
theorem early_response_class_zero (d r r' : ℚ) (l : Option ℚ)
    (hearly : r < d) (hon1 : d ≤ r') (hon2 : r' ≤ d + RESPONSE_WINDOW) :
    classify_trial (some d) (some r) l = (0, some (r - d)) ∧
      (classify_trial (some d) (some r') l).1 = 0 := by
  constructor
  · simp only [classify_trial]
    rw [if_pos hearly]
  · simp only [classify_trial]
    rw [if_neg (not_lt.mpr hon1), if_pos ⟨hon1, hon2⟩]

/-- Witness for C10 with disappear at 10, an early response at 5 and an
on-time response at 10. -/
theorem early_response_class_zero_witness :
    (5:ℚ) < 10 ∧ (10:ℚ) ≤ 10 ∧ (10:ℚ) ≤ 10 + RESPONSE_WINDOW ∧
      (classify_trial (some 10) (some 5) none = (0, some (5 - 10)) ∧
        (classify_trial (some 10) (some 10) none).1 = 0) :=
  ⟨by norm_num, le_refl 10, by norm_num [RESPONSE_WINDOW],
    early_response_class_zero 10 5 10 none (by norm_num) (le_refl 10)
      (by norm_num [RESPONSE_WINDOW])⟩

end ReactionTimes
